import Mathlib

/-!
Verification of the tool-invocation core of a business-intelligence chat
agent (Snowflake + Google Sheets).  The Python source is shallowly embedded:

* Python `dict`s used as JSON-like values become the inductive `Json`
  (association lists preserve `dict` insertion order; number lexemes are
  kept verbatim since no verified property depends on numeric value);
* the persistent alias store (`ResourceManager`), a `dict[str, str]`
  flushed to disk after every mutation, becomes a total lookup function
  `String → Option String` (disk persistence is an external collaborator);
* fallible calls (Snowflake queries, Sheets API calls, tool invocations)
  become `Except String α` values or oracle parameters returning them;
* Python `str` is Lean `String` (a sequence of code points); the string
  primitives the source uses (`lower`, `strip`, `startswith`, `split`,
  slicing, `in`) are re-implemented over the character list so that they
  are faithful to Python's semantics on the ASCII inputs involved and
  evaluate by kernel reduction.
-/

namespace SnowAgent

/-! ## Python string primitives (over the character list) -/

/-- Python whitespace for `str.strip()` (ASCII part). -/
def pyIsSpace (c : Char) : Bool :=
  c = ' ' ∨ c = '\t' ∨ c = '\n' ∨ c = '\r' ∨ c = '\x0b' ∨ c = '\x0c'

/-- `str.lower()` (ASCII case mapping). -/
def pyLower (s : String) : String :=
  ⟨s.data.map Char.toLower⟩

/-- `str.upper()` (ASCII case mapping). -/
def pyUpper (s : String) : String :=
  ⟨s.data.map Char.toUpper⟩

/-- `str.strip()`: remove leading and trailing whitespace. -/
def pyStrip (s : String) : String :=
  ⟨((s.data.dropWhile pyIsSpace).reverse.dropWhile pyIsSpace).reverse⟩

/-- List-level prefix test (character-exact). -/
def isPrefixL : List Char → List Char → Bool
  | [], _ => true
  | _ :: _, [] => false
  | p :: ps, c :: cs => p = c && isPrefixL ps cs

/-- `str.startswith(pre)`. -/
def pyStartswith (s pre : String) : Bool :=
  isPrefixL pre.data s.data

/-- Does `needle` occur as a contiguous run inside `hay`? (Python `in`.) -/
def occursIn (needle : List Char) : List Char → Bool
  | [] => isPrefixL needle []
  | c :: cs => isPrefixL needle (c :: cs) || occursIn needle cs

/-- Python `needle in s` for strings. -/
def pyContains (s needle : String) : Bool :=
  occursIn needle.data s.data

/-- The part of `hay` strictly before the first occurrence of `needle`
(the whole of `hay` when `needle` does not occur): `s.split(sep)[0]`. -/
def takeBeforeFirst (needle : List Char) : List Char → List Char
  | [] => []
  | c :: cs =>
    if isPrefixL needle (c :: cs) then []
    else c :: takeBeforeFirst needle cs

/-- `s.split(sep)[0]` for a non-empty separator. -/
def pySplitFirst (s sep : String) : String :=
  ⟨takeBeforeFirst sep.data s.data⟩

/-- `s[n:]` — drop the first `n` characters. -/
def pyDrop (s : String) (n : Nat) : String :=
  ⟨s.data.drop n⟩

/-- `s[:n]` — take the first `n` characters. -/
def pyTake (s : String) (n : Nat) : String :=
  ⟨s.data.take n⟩

/-- `len(s)` in characters. -/
def pyLen (s : String) : Nat :=
  s.data.length

/-- Join strings with a separator (Python `sep.join(...)`). -/
def strJoin (sep : String) : List String → String
  | [] => ""
  | [x] => x
  | x :: rest => x ++ sep ++ strJoin sep rest

/-! ## JSON-like Python values -/

/-- JSON-like Python values (`dict` / `list` / `str` / number / bool /
`None`).  Object fields are an association list in `dict` insertion
order; `num` stores the numeric lexeme verbatim. -/
inductive Json where
  | null : Json
  | bool (b : Bool) : Json
  | num (lexeme : String) : Json
  | str (s : String) : Json
  | arr (elems : List Json) : Json
  | obj (fields : List (String × Json)) : Json

/-- Python `dict.get(key, default)` on an association list: the first
binding of `key` wins (a `dict` has unique keys, so this is exact). -/
def alistGet {α : Type} (kvs : List (String × α)) (key : String) : Option α :=
  match kvs with
  | [] => none
  | (k, v) :: rest => if k = key then some v else alistGet rest key

/-! ## Schema bridge (`agent/agent.py`, `sanitize_schema`)

`sanitize_schema(schema, is_root)` walks a JSON schema dict: it skips an
`"additionalProperties"` key, skips a `"title"` key only when `is_root`,
recurses element-wise through the value of a `"properties"` key,
recurses into any other dict value, maps itself over dict elements of a
list value (passing non-dict elements through), and passes scalars
through unchanged.  Non-dict input is returned unchanged. -/

mutual

/-- `sanitize_schema` from `agent/agent.py`. -/
def sanitize_schema (schema : Json) (is_root : Bool) : Json :=
  match schema with
  | .obj fields => .obj (sanitizeFields fields is_root)
  | other => other
termination_by 2 * sizeOf schema

/-- The `for key, value in schema.items()` loop of `sanitize_schema`. -/
def sanitizeFields (fields : List (String × Json)) (is_root : Bool) :
    List (String × Json) :=
  match fields with
  | [] => []
  | (key, value) :: rest =>
    if key = "additionalProperties" then sanitizeFields rest is_root
    else if is_root ∧ key = "title" then sanitizeFields rest is_root
    else (key, sanitizeValue key value) :: sanitizeFields rest is_root
termination_by 2 * sizeOf fields

/-- How `sanitize_schema` rewrites one retained value (the
`isinstance(value, dict)` / `isinstance(value, list)` / scalar split). -/
def sanitizeValue (key : String) (value : Json) : Json :=
  match value with
  | .obj kvs =>
    if key = "properties" then .obj (sanitizeProperties kvs)
    else sanitize_schema (.obj kvs) false
  | .arr elems => .arr (sanitizeElems elems)
  | other => other
termination_by 2 * sizeOf value + 1

/-- The `{k: sanitize_schema(v, is_root=False) for k, v in value.items()}`
comprehension used for a `"properties"` value. -/
def sanitizeProperties (kvs : List (String × Json)) : List (String × Json) :=
  match kvs with
  | [] => []
  | (k, v) :: rest => (k, sanitize_schema v false) :: sanitizeProperties rest
termination_by 2 * sizeOf kvs

/-- The list comprehension over a list value: sanitize dict elements,
pass all other elements through unchanged. -/
def sanitizeElems (elems : List Json) : List Json :=
  match elems with
  | [] => []
  | x :: rest =>
    (match x with
     | .obj kvs => sanitize_schema (.obj kvs) false
     | other => other) :: sanitizeElems rest
termination_by 2 * sizeOf elems

end

/-- Is this value a Python `dict`? -/
def Json.isObj : Json → Bool
  | .obj _ => true
  | _ => false

mutual

/-- Does `key` occur as an object key anywhere in the value (any
nesting depth, including property names and inside nested lists)? -/
def jsonHasKey (key : String) (v : Json) : Bool :=
  match v with
  | .obj kvs => fieldsHaveKey key kvs
  | .arr xs => elemsHaveKey key xs
  | _ => false
termination_by sizeOf v

/-- `jsonHasKey` over the fields of an object. -/
def fieldsHaveKey (key : String) (kvs : List (String × Json)) : Bool :=
  match kvs with
  | [] => false
  | (k, v) :: rest => k = key || jsonHasKey key v || fieldsHaveKey key rest
termination_by sizeOf kvs

/-- `jsonHasKey` over the elements of a list. -/
def elemsHaveKey (key : String) (xs : List Json) : Bool :=
  match xs with
  | [] => false
  | x :: rest => jsonHasKey key x || elemsHaveKey key rest
termination_by sizeOf xs

end

mutual

/-- The cleanliness invariant `sanitize_schema` establishes along the
(exact) paths it traverses: no `"additionalProperties"` key at any
keyword position, no `"title"` key at the root, recursing through
`"properties"` maps, other dict values, and dict elements of lists.
Property names inside a `"properties"` map and the contents of non-dict
list elements (e.g. nested lists) are *not* keyword positions. -/
def cleanSchema (is_root : Bool) (v : Json) : Bool :=
  match v with
  | .obj kvs => cleanFields is_root kvs
  | _ => true
termination_by 2 * sizeOf v

/-- `cleanSchema` over retained object fields. -/
def cleanFields (is_root : Bool) (kvs : List (String × Json)) : Bool :=
  match kvs with
  | [] => true
  | (k, v) :: rest =>
    if k = "additionalProperties" then false
    else if is_root ∧ k = "title" then false
    else cleanValue k v && cleanFields is_root rest
termination_by 2 * sizeOf kvs

/-- `cleanSchema` for the value of a retained key. -/
def cleanValue (k : String) (v : Json) : Bool :=
  match v with
  | .obj kvs => if k = "properties" then cleanProps kvs else cleanFields false kvs
  | .arr xs => cleanElems xs
  | _ => true
termination_by 2 * sizeOf v + 1

/-- `cleanSchema` element-wise under a `"properties"` map (keys there are
property names and are unconstrained). -/
def cleanProps (kvs : List (String × Json)) : Bool :=
  match kvs with
  | [] => true
  | (_, v) :: rest => cleanSchema false v && cleanProps rest
termination_by 2 * sizeOf kvs

/-- `cleanSchema` over list elements: dict elements must be clean,
non-dict elements are unconstrained. -/
def cleanElems (xs : List Json) : Bool :=
  match xs with
  | [] => true
  | x :: rest =>
    (match x with
     | .obj kvs => cleanFields false kvs
     | _ => true) && cleanElems rest
termination_by 2 * sizeOf xs

end

/-! ## `json.loads` (used by the tool executor)

A recursive-descent parser for the JSON accepted by Python's
`json.loads` with default options (including the `NaN` / `Infinity` /
`-Infinity` extensions; numbers are kept as lexemes; `\uXXXX` escapes
decode a single code unit, surrogate pairing is not modelled).
Recursion is on explicit fuel so the parser evaluates by kernel
reduction; `json_loads` supplies fuel ample for any input. -/

/-- JSON inter-token whitespace (`' '`, `'\t'`, `'\n'`, `'\r'`). -/
def skipWs : List Char → List Char
  | [] => []
  | c :: cs =>
    if c = ' ' ∨ c = '\t' ∨ c = '\n' ∨ c = '\r' then skipWs cs else c :: cs

/-- Value of a hexadecimal digit. -/
def hexVal (c : Char) : Option Nat :=
  if '0' ≤ c ∧ c ≤ '9' then some (c.toNat - '0'.toNat)
  else if 'a' ≤ c ∧ c ≤ 'f' then some (c.toNat - 'a'.toNat + 10)
  else if 'A' ≤ c ∧ c ≤ 'F' then some (c.toNat - 'A'.toNat + 10)
  else none

/-- Decode a JSON string body (after the opening quote), returning the
decoded characters and the input after the closing quote. -/
def parseStrBody : Nat → List Char → Option (List Char × List Char)
  | 0, _ => none
  | _ + 1, [] => none
  | fuel + 1, c :: cs =>
    if c = '"' then some ([], cs)
    else if c = '\\' then
      match cs with
      | [] => none
      | e :: cs2 =>
        let decoded : Option (Char × List Char) :=
          if e = '"' then some ('"', cs2)
          else if e = '\\' then some ('\\', cs2)
          else if e = '/' then some ('/', cs2)
          else if e = 'b' then some ('\x08', cs2)
          else if e = 'f' then some ('\x0c', cs2)
          else if e = 'n' then some ('\n', cs2)
          else if e = 'r' then some ('\r', cs2)
          else if e = 't' then some ('\t', cs2)
          else if e = 'u' then
            match cs2 with
            | h1 :: h2 :: h3 :: h4 :: cs3 =>
              match hexVal h1, hexVal h2, hexVal h3, hexVal h4 with
              | some a, some b, some c3, some d =>
                some (Char.ofNat (((a * 16 + b) * 16 + c3) * 16 + d), cs3)
              | _, _, _, _ => none
            | _ => none
          else none
        match decoded with
        | none => none
        | some (ch, rest) =>
          match parseStrBody fuel rest with
          | some (chars, r2) => some (ch :: chars, r2)
          | none => none
    else if c.toNat < 32 then none
    else
      match parseStrBody fuel cs with
      | some (chars, r2) => some (c :: chars, r2)
      | none => none

/-- Lex a JSON number (the scanner's `NUMBER_RE`): optional sign,
integer part (`0` or nonzero-led digits), optional fraction, optional
exponent; returns the lexeme and the remaining input. -/
def parseNum (cs : List Char) : Option (List Char × List Char) :=
  let (sign, cs1) :=
    match cs with
    | '-' :: t => (['-'], t)
    | _ => (([] : List Char), cs)
  match cs1 with
  | [] => none
  | c :: t =>
    if c = '0' ∨ ¬ c.isDigit then
      if c = '0' then
        let (frac, r1) := numFrac t
        let (ex, r2) := numExp r1
        some (sign ++ ['0'] ++ frac ++ ex, r2)
      else none
    else
      let ds := t.takeWhile Char.isDigit
      let r0 := t.dropWhile Char.isDigit
      let (frac, r1) := numFrac r0
      let (ex, r2) := numExp r1
      some (sign ++ (c :: ds) ++ frac ++ ex, r2)
where
  /-- Optional `.digits+`; consumed only when well-formed. -/
  numFrac (cs : List Char) : List Char × List Char :=
    match cs with
    | '.' :: d :: t =>
      if d.isDigit then
        ('.' :: d :: t.takeWhile Char.isDigit, t.dropWhile Char.isDigit)
      else ([], cs)
    | _ => ([], cs)
  /-- Optional `[eE][+-]?digits+`; consumed only when well-formed. -/
  numExp (cs : List Char) : List Char × List Char :=
    match cs with
    | e :: rest =>
      if e = 'e' ∨ e = 'E' then
        match rest with
        | s :: d :: t =>
          if (s = '+' ∨ s = '-') ∧ d.isDigit then
            (e :: s :: d :: t.takeWhile Char.isDigit, t.dropWhile Char.isDigit)
          else if s.isDigit then
            (e :: s :: rest.tail.takeWhile Char.isDigit,
             rest.tail.dropWhile Char.isDigit)
          else ([], cs)
        | [d] =>
          if d.isDigit then (e :: [d], []) else ([], cs)
        | [] => ([], cs)
      else ([], cs)
    | [] => ([], cs)

/-- Python `dict` assignment while building an object: a repeated key
overwrites the value in place (keeping the original position), a fresh
key is appended. -/
def pyDictInsert (kvs : List (String × Json)) (k : String) (v : Json) :
    List (String × Json) :=
  match kvs with
  | [] => [(k, v)]
  | (k', v') :: rest =>
    if k' = k then (k', v) :: rest else (k', v') :: pyDictInsert rest k v

mutual

/-- Parse one JSON value (leading whitespace allowed), returning it and
the remaining input. -/
def parseValue : Nat → List Char → Option (Json × List Char)
  | 0, _ => none
  | fuel + 1, cs0 =>
    let cs := skipWs cs0
    match cs with
    | [] => none
    | c :: rest =>
      if c = '"' then
        match parseStrBody fuel rest with
        | some (chars, r) => some (.str ⟨chars⟩, r)
        | none => none
      else if c = '\x7b' then parseObjBody fuel rest
      else if c = '[' then parseArrBody fuel rest
      else if isPrefixL "null".data cs then some (.null, cs.drop 4)
      else if isPrefixL "true".data cs then some (.bool true, cs.drop 4)
      else if isPrefixL "false".data cs then some (.bool false, cs.drop 5)
      else
        match parseNum cs with
        | some (lex, r) => some (.num ⟨lex⟩, r)
        | none =>
          if isPrefixL "NaN".data cs then some (.num "NaN", cs.drop 3)
          else if isPrefixL "Infinity".data cs then some (.num "Infinity", cs.drop 8)
          else if isPrefixL "-Infinity".data cs then some (.num "-Infinity", cs.drop 9)
          else none

/-- Parse an array body (after `[`). -/
def parseArrBody : Nat → List Char → Option (Json × List Char)
  | 0, _ => none
  | fuel + 1, cs0 =>
    let cs := skipWs cs0
    match cs with
    | ']' :: r => some (.arr [], r)
    | _ =>
      match parseArrElems fuel cs with
      | some (vs, r) => some (.arr vs, r)
      | none => none

/-- Parse one or more comma-separated array elements up to `]`. -/
def parseArrElems : Nat → List Char → Option (List Json × List Char)
  | 0, _ => none
  | fuel + 1, cs =>
    match parseValue fuel cs with
    | none => none
    | some (v, r) =>
      match skipWs r with
      | ',' :: r2 =>
        match parseArrElems fuel r2 with
        | some (vs, r3) => some (v :: vs, r3)
        | none => none
      | ']' :: r2 => some ([v], r2)
      | _ => none

/-- Parse an object body (after the opening brace). -/
def parseObjBody : Nat → List Char → Option (Json × List Char)
  | 0, _ => none
  | fuel + 1, cs0 =>
    let cs := skipWs cs0
    match cs with
    | '\x7d' :: r => some (.obj [], r)
    | _ =>
      match parseObjFields fuel [] cs with
      | some (kvs, r) => some (.obj kvs, r)
      | none => none

/-- Parse one or more `"key": value` pairs up to the closing brace,
accumulating with `dict` assignment semantics. -/
def parseObjFields : Nat → List (String × Json) → List Char →
    Option (List (String × Json) × List Char)
  | 0, _, _ => none
  | fuel + 1, acc, cs =>
    match skipWs cs with
    | '"' :: r0 =>
      match parseStrBody fuel r0 with
      | none => none
      | some (keyChars, r1) =>
        match skipWs r1 with
        | ':' :: r2 =>
          match parseValue fuel r2 with
          | none => none
          | some (v, r3) =>
            let acc2 := pyDictInsert acc ⟨keyChars⟩ v
            match skipWs r3 with
            | ',' :: r4 => parseObjFields fuel acc2 r4
            | '\x7d' :: r4 => some (acc2, r4)
            | _ => none
        | _ => none
    | _ => none

end

/-- `json.loads`: parse a complete JSON document; trailing whitespace is
allowed, any other trailing input is an error. -/
def json_loads (s : String) : Option Json :=
  match parseValue (4 * s.data.length + 8) s.data with
  | some (v, rest) => if skipWs rest = [] then some v else none
  | none => none

/-! ## Tool executor (`agent/agent.py`, `Agent._execute_tool`)

`_execute_tool(tool_name, args)` looks the tool up in the FastMCP
catalogue (a lookup failure or a `None` result both yield the
`Unknown tool` error object), invokes `tool.fn(**args)`, runs the
returned value through `json.loads` when it is a string (a parse
failure keeps the string), wraps any resulting non-`dict` value as
`{result: value}`, and converts a raised exception into
`{error: message}`.  The embedding also returns the list of performed
tool invocations so that freedom from side effects is expressible. -/

/-- A registered tool's `fn`: keyword arguments to either a raised
exception's message or a returned JSON-representable value. -/
def ToolFn : Type := List (String × Json) → Except String Json

/-- The `parsed` value of `_execute_tool`: a returned string is parsed
as JSON when possible (`json.loads`), any other value is kept. -/
def parsedResult (v : Json) : Json :=
  match v with
  | .str s => (json_loads s).getD (.str s)
  | other => other

/-- The final wrap of `_execute_tool`:
`{"result": parsed} if isinstance(parsed, (list, str, int, float, bool,
type(None))) else parsed` — a `dict` is returned as is, everything else
is wrapped under a single `result` key. -/
def wrapParsed (parsed : Json) : Json :=
  match parsed with
  | .obj kvs => .obj kvs
  | p => .obj [("result", p)]

/-- `Agent._execute_tool` over a tool catalogue.  The second component
records the tool invocations performed (empty = no side effect). -/
def execute_tool (catalogue : List (String × ToolFn)) (tool_name : String)
    (args : List (String × Json)) :
    Json × List (String × List (String × Json)) :=
  match alistGet catalogue tool_name with
  | none => (.obj [("error", .str ("Unknown tool: " ++ tool_name))], [])
  | some fn =>
    match fn args with
    | .error e => (.obj [("error", .str e)], [(tool_name, args)])
    | .ok v => (wrapParsed (parsedResult v), [(tool_name, args)])

/-- The `echo(x)` tool of the claim's scenario: returns the non-JSON
string `"hello"`. -/
def echoTool : ToolFn := fun _ => .ok (.str "hello")

/-! ## Conversation loop (`agent/agent.py`, `Agent.run_async`)

The `while response.candidates:` loop is embedded with the oracle
scripted: `script` lists the successive `generate_content` responses.
A turn's parts are text, tool-call requests, or tool results
(`types.Part` restricted to the fields the loop reads).  The loop
inspects the first candidate; with no tool calls it yields the cleaned,
newline-joined text and stops; otherwise it executes every requested
call in order via `_execute_tool`, appends the model turn and a single
`role="user"` turn holding all the function responses, and issues the
next oracle call on the extended contents.  `LoopOut` records the
contents passed to each subsequent oracle call, the tool invocations in
execution order, and the final text (if any). -/

/-- A content part as the loop reads it. -/
inductive GPart where
  | text (s : String) : GPart
  | functionCall (name : String) (args : List (String × Json)) : GPart
  | functionResponse (name : String) (response : Json) : GPart

/-- A role-tagged content (one conversation turn). -/
structure GContent where
  role : Option String
  parts : List GPart

/-- A model response: candidates, each with optional content. -/
structure GResponse where
  candidates : List (Option GContent)

/-- `p.function_call` truthiness. -/
def isFunctionCall : GPart → Bool
  | .functionCall _ _ => true
  | _ => false

/-- The (name, args) of a tool-call request part. -/
def callInfo : GPart → String × List (String × Json)
  | .functionCall n a => (n, a)
  | _ => ("", [])

/-- `[p.text for p in parts if p.text]` (non-empty text parts). -/
def textParts (parts : List GPart) : List String :=
  parts.filterMap (fun p =>
    match p with
    | .text s => if s = "" then none else some s
    | _ => none)

/-- The `tool_responses` list: one `FunctionResponse` per requested
call, in request order, carrying `_execute_tool`'s result. -/
def toolResponses (cat : List (String × ToolFn)) (fcs : List GPart) : List GPart :=
  fcs.map (fun p =>
    match p with
    | .functionCall n a => .functionResponse n (execute_tool cat n a).1
    | other => other)

/-- Split at the first occurrence of `needle`: the part before it and
the part after it (the needle consumed), or `none` when absent. -/
def splitFirstAt (needle : List Char) : List Char → Option (List Char × List Char)
  | [] => if isPrefixL needle [] then some ([], []) else none
  | c :: cs =>
    if isPrefixL needle (c :: cs) then some ([], (c :: cs).drop needle.length)
    else
      match splitFirstAt needle cs with
      | some (before, after) => some (c :: before, after)
      | none => none

/-- `re.sub(openTag + ".*?```", "", s, flags=DOTALL)` for an `openTag`
that itself starts with three backticks: remove every non-greedy block
from an occurrence of the tag to the next triple backtick. -/
def removeTagged (openTag : List Char) : Nat → List Char → List Char
  | 0, s => s
  | fuel + 1, s =>
    match splitFirstAt openTag s with
    | none => s
    | some (before, rest) =>
      match splitFirstAt "```".data rest with
      | none => s
      | some (_, after) => before ++ removeTagged openTag fuel after

/-- `Agent._clean_response`: strip ```` ```sql ```` and
```` ```snowflake ```` blocks, then `strip()`. -/
def clean_response (text : String) : String :=
  let t1 : String := ⟨removeTagged "```sql\n".data (text.data.length + 1) text.data⟩
  let t2 : String := ⟨removeTagged "```snowflake\n".data (t1.data.length + 1) t1.data⟩
  pyStrip t2

/-- What one run of the `while` loop produced. -/
structure LoopOut where
  oracleCalls : List (List GContent)
  toolLog : List (String × List (String × Json))
  final : Option String

/-- The `while response.candidates:` loop of `run_async`.  An exhausted
script stands for a transport failure on the pending oracle call (the
outer `except` path); `final = none` with no text means the loop ended
via `break`/no-candidates and yielded only the closing event. -/
def run_loop (cat : List (String × ToolFn)) :
    List GResponse → List GContent → LoopOut
  | [], _ => ⟨[], [], none⟩
  | r :: rest, contents =>
    match r.candidates.head? with
    | none => ⟨[], [], none⟩
    | some none => ⟨[], [], none⟩
    | some (some c) =>
      if c.parts.isEmpty then ⟨[], [], none⟩
      else
        let fcs := c.parts.filter isFunctionCall
        if fcs.isEmpty then
          let texts := textParts c.parts
          ⟨[], [],
           if texts.isEmpty then none
           else some (clean_response (strJoin "\n" texts))⟩
        else
          let toolTurn : GContent := ⟨some "user", toolResponses cat fcs⟩
          let contents2 := contents ++ [c, toolTurn]
          let out := run_loop cat rest contents2
          ⟨contents2 :: out.oracleCalls, fcs.map callInfo ++ out.toolLog, out.final⟩

/-! ## Resource alias store (`agent/tools/resource_manager.py`)

`ResourceManager.resources` is a `dict[str, str]`; `save_alias` assigns
`resources[alias] = resource_id` and flushes, `get_id` is
`resources.get(alias_or_id, alias_or_id)`.  The store is embedded as the
lookup function of the dict. -/

/-- The alias store: alias → resource id, `none` when the key is absent. -/
def Store : Type := String → Option String

/-- `ResourceManager.save_alias`: `self.resources[alias] = resource_id`
(insert-or-overwrite; the synchronous flush to disk is external I/O). -/
def save_alias (res : Store) (a resource_id : String) : Store :=
  fun k => if k = a then some resource_id else res k

/-- `ResourceManager.get_id`: `self.resources.get(alias_or_id, alias_or_id)`. -/
def get_id (res : Store) (alias_or_id : String) : String :=
  (res alias_or_id).getD alias_or_id

/-! ## Sheets tools (`agent/tool_definitions/sheets_tools.py`) -/

/-- The alias derived from a display name in `create_new_sheet` /
`rename_sheet`: `title.lower().replace(" ", "_")`. -/
def derive_alias (name : String) : String :=
  ⟨(pyLower name).data.map (fun c => if c = ' ' then '_' else c)⟩

/-- `rename_sheet` (store effect and resolved id).  The source resolves
`sheet_alias_or_id` through `get_id`, calls the Sheets API rename
(embedded as its outcome `api : Except String Unit`), and on success
saves the alias derived from `new_name` for the resolved id.  On an API
exception the store is left untouched and an error string is returned. -/
def rename_sheet (res : Store) (api : Except String Unit)
    (sheet_alias_or_id new_name : String) : Store × String :=
  let spreadsheet_id := get_id res sheet_alias_or_id
  match api with
  | .error e => (res, "Error renaming sheet: " ++ e)
  | .ok _ =>
    let new_alias := derive_alias new_name
    (save_alias res new_alias spreadsheet_id,
     "✓ Renamed sheet to '" ++ new_name ++ "'\n\nURL: " ++
       "https://docs.google.com/spreadsheets/d/" ++ spreadsheet_id ++
       "\nNew alias: '" ++ new_alias ++ "'")

/-! ## Sheets client write check (`agent/tools/sheets_client.py`)

`write_sheet` sends the update and then inspects the API response dict:
`updated_cells = result.get("updatedCells", 0)`; if that is `0` it raises
`ValueError`, otherwise it returns the response.  The post-call check is
embedded over the response (whose update counters are integers). -/

/-- Render a Sheets update response for the `ValueError` message
(abstracting Python's dict `repr`). -/
def renderResponse (result : List (String × Int)) : String :=
  String.intercalate ", " (result.map (fun kv => kv.1 ++ "=" ++ toString kv.2))

/-- The post-API-call part of `SheetsClient.write_sheet`: raise on a
zero (or absent) `updatedCells` count, otherwise return the response. -/
def write_sheet_check (result : List (String × Int)) :
    Except String (List (String × Int)) :=
  let updated_cells := (alistGet result "updatedCells").getD 0
  if updated_cells = 0 then
    .error ("Write operation returned 0 updated cells. Response: " ++
      renderResponse result)
  else
    .ok result

/-! ## Result rendering (`agent/tools.py`, `format_as_table`)

Cell values are modelled after Python's `str()` conversion (the
`None → ""` default of `row.get(col, "")` included), so a row is an
association list of string cells in `dict` order. -/

/-- One Snowflake result row: column → (stringified) cell value. -/
def Row : Type := List (String × String)

/-- `format_as_table(data, max_rows)`: fixed-width Markdown table with a
50-character cell cap (truncated to 47 + `"..."`) and a row-count
footer. -/
def format_as_table (data : List Row) (max_rows : Nat) : String :=
  if data.isEmpty then "No data returned"
  else
    let display_data := data.take max_rows
    let total_rows := data.length
    let columns := (display_data.headD []).map (fun kv => kv.1)
    let header := "| " ++ strJoin " | " columns ++ " |"
    let separator := "|" ++ strJoin "|" (columns.map (fun _ => "------")) ++ "|"
    let rows := display_data.map (fun row =>
      "| " ++ strJoin " | " (columns.map (fun col =>
        let val := (alistGet row col).getD ""
        if pyLen val > 50 then pyTake val 47 ++ "..." else val)) ++ " |")
    let table := strJoin "\n" (header :: separator :: rows)
    if total_rows > max_rows then
      table ++ "\n\n*Showing " ++ toString max_rows ++ " of " ++
        toString total_rows ++ " rows*"
    else
      table ++ "\n\n*" ++ toString total_rows ++ " rows*"

/-- `format_as_table` at its default `max_rows=100` (as all call sites
use it). -/
def formatAsTableD (data : List Row) : String :=
  format_as_table data 100

/-! ## Identifier trimming (`agent/tool_definitions.py`, orphaned
preview/resolver block inside `_list_tables_internal`)

The block first strips recognized leading phrases (matched against the
lower-cased name; the remainder keeps its original case), then — if the
name still contains `"preview"` case-insensitively — lower-cases the
name and truncates it before the first `"preview"`, and finally strips
surrounding whitespace. -/

/-- The recognized leading phrases, in source order. -/
def RECOGNIZED_PREFIXES : List String :=
  ["preview table ", "preview ", "show table ", "show ", "table "]

/-- The `for prefix in [...]` loop: each phrase in turn is stripped off
the front (case-insensitive match, case-preserving remainder, then
`strip()`). -/
def stripRecognizedPrefixes (table_name : String) : String :=
  RECOGNIZED_PREFIXES.foldl
    (fun n p => if pyStartswith (pyLower n) p then pyStrip (pyDrop n (pyLen p)) else n)
    table_name

/-- The full input-trimming step of the preview/resolver block. -/
def sanitize_table_name (table_name0 : String) : String :=
  let t1 := stripRecognizedPrefixes table_name0
  let t2 :=
    if pyContains (pyLower t1) "preview" then
      pyStrip (pySplitFirst (pyLower t1) "preview")
    else t1
  pyStrip t2

/-! ## Error translator (`agent/tools/error_handler.py`)

`ErrorHandler` matches the exception text against two ordered pattern
tables.  Snowflake patterns are regular expressions, but the only regex
syntax any of them uses is a single `.*` joining two literals (the rest
are metacharacter-free literals), so a pattern is embedded as `Pat`.
Sheets patterns are plain substrings. -/

/-- A Snowflake error pattern: a regex that is either a literal or two
literals joined by `.*`. -/
inductive Pat where
  | lit (s : String) : Pat
  | dotstar (a b : String) : Pat

/-- `pattern.lower()` applied to the pattern source. -/
def patLower : Pat → Pat
  | .lit s => .lit (pyLower s)
  | .dotstar a b => .dotstar (pyLower a) (pyLower b)

/-- Characters up to the first newline (`.` in `re` does not match
`'\n'` without `DOTALL`). -/
def firstLine (cs : List Char) : List Char :=
  cs.takeWhile (fun c => !(c = '\n'))

/-- `re.search` for `a.*b`: some occurrence of `a` is followed, within
the same line, by an occurrence of `b`. -/
def searchDotstar (a b : List Char) : List Char → Bool
  | [] => isPrefixL a [] && occursIn b (firstLine (([] : List Char).drop a.length))
  | c :: cs =>
    (isPrefixL a (c :: cs) && occursIn b (firstLine ((c :: cs).drop a.length)))
      || searchDotstar a b cs

/-- `re.search(pattern, text) is not None` for the pattern shapes
appearing in `SNOWFLAKE_ERRORS`. -/
def reSearch (p : Pat) (text : String) : Bool :=
  match p with
  | .lit s => occursIn s.data text.data
  | .dotstar a b => searchDotstar a.data b.data text.data

/-- One entry of an error table: `type`, `message`, `suggestions`. -/
structure ErrInfo where
  type : String
  message : String
  suggestions : List String

/-- `ErrorHandler.SNOWFLAKE_ERRORS`, in source (dict insertion) order. -/
def SNOWFLAKE_ERRORS : List (Pat × ErrInfo) :=
  [ (.lit "does not exist or not authorized",
     ⟨"TableNotFound",
      "The table or view you're trying to access doesn't exist or you don't have permission.",
      ["Check the table name spelling",
       "Ensure you're using the correct schema (format: SCHEMA.TABLE)",
       "Verify you have SELECT permission on this table"]⟩),
    (.lit "SQL compilation error",
     ⟨"SQLSyntaxError",
      "There's a syntax error in your SQL query.",
      ["Check for missing commas or quotes",
       "Verify column names exist in the table",
       "Try simplifying the query to isolate the issue"]⟩),
    (.dotstar "Numeric value" "out of range",
     ⟨"NumericOverflow",
      "A numeric value in your query result is too large.",
      ["Use CAST() to convert to a larger data type",
       "Apply filters to reduce the range of values",
       "Consider using TO_VARCHAR() for very large numbers"]⟩),
    (.lit "Invalid identifier",
     ⟨"InvalidIdentifier",
      "A column or table name in your query is invalid.",
      ["Use double quotes for case-sensitive or special character names",
       "Check for typos in column/table names"]⟩),
    (.lit "Division by zero",
     ⟨"DivisionByZero",
      "Your query attempted to divide by zero.",
      ["Add a WHERE clause to filter out zero denominators",
       "Use NULLIF() to handle zero values: field / NULLIF(divisor, 0)",
       "Use a CASE statement to handle zero denominators"]⟩),
    (.lit "authentication failed",
     ⟨"AuthenticationError",
      "Failed to authenticate with Snowflake.",
      ["Check your SNOWFLAKE_USER and SNOWFLAKE_PASSWORD in .env",
       "Verify your Snowflake account name is correct",
       "Ensure your credentials haven't expired"]⟩),
    (.dotstar "Warehouse" "does not exist",
     ⟨"WarehouseNotFound",
      "The specified warehouse doesn't exist or isn't accessible.",
      ["Check SNOWFLAKE_WAREHOUSE in your .env file",
       "Verify the warehouse name spelling",
       "Ensure the warehouse is running and not suspended"]⟩) ]

/-- `ErrorHandler.SHEETS_ERRORS`, in source (dict insertion) order;
patterns are plain substrings. -/
def SHEETS_ERRORS : List (String × ErrInfo) :=
  [ ("403",
     ⟨"PermissionDenied",
      "Access denied to the Google Sheet.",
      ["Share the sheet with your service account email",
       "Check GOOGLE_SERVICE_ACCOUNT_PATH points to the correct file",
       "Verify the service account has Editor or Viewer permissions"]⟩),
    ("404",
     ⟨"SheetNotFound",
      "The spreadsheet or sheet tab was not found.",
      ["Verify the spreadsheet ID is correct",
       "Check that the sheet tab name matches exactly (case-sensitive)",
       "Ensure the spreadsheet hasn't been deleted"]⟩),
    ("Unable to parse range",
     ⟨"InvalidRange",
      "The sheet range format is invalid.",
      ["Use A1 notation (e.g., 'Sheet1!A1:B10')",
       "Ensure the sheet name is correct",
       "Use single quotes for sheet names with spaces: 'My Sheet'!A1"]⟩),
    ("INVALID_ARGUMENT",
     ⟨"InvalidArgument",
      "Invalid argument provided to Google Sheets API.",
      ["Check that values are properly formatted",
       "Ensure range notation is correct"]⟩) ]

/-- Does a Snowflake table entry match exception text `e`?  The source
runs `re.search(pattern.lower(), str(error).lower())`. -/
def snowMatches (entry : Pat × ErrInfo) (e : String) : Bool :=
  reSearch (patLower entry.1) (pyLower e)

/-- Does a Sheets table entry match exception text `e`?  The source runs
`pattern in str(error)` — a case-sensitive substring test on the raw
text. -/
def sheetsMatches (entry : String × ErrInfo) (e : String) : Bool :=
  pyContains e entry.1

/-- The generic Snowflake fallback triple. -/
def snowFallback : String × String × List String :=
  ("SnowflakeError",
   "An error occurred while executing your Snowflake query.",
   ["Check the error details above",
    "Verify your SQL syntax is correct",
    "Try breaking down complex queries into simpler parts"])

/-- The generic Sheets fallback triple. -/
def sheetsFallback : String × String × List String :=
  ("GoogleSheetsError",
   "An error occurred while accessing Google Sheets.",
   ["Verify the spreadsheet ID is correct",
    "Check that the service account has proper permissions",
    "Try the operation again — might be a temporary API issue"])

/-- `ErrorHandler.handle_snowflake_error` on the exception text: first
matching pattern wins, otherwise the generic fallback. -/
def handle_snowflake_error (error : String) : String × String × List String :=
  match SNOWFLAKE_ERRORS.find? (fun entry => snowMatches entry error) with
  | some entry => (entry.2.type, entry.2.message, entry.2.suggestions)
  | none => snowFallback

/-- `ErrorHandler.handle_sheets_error` on the exception text: first
matching substring pattern wins, otherwise the generic fallback. -/
def handle_sheets_error (error : String) : String × String × List String :=
  match SHEETS_ERRORS.find? (fun entry => sheetsMatches entry error) with
  | some entry => (entry.2.type, entry.2.message, entry.2.suggestions)
  | none => sheetsFallback

/-- Modelled from the spec's words for the spreadsheet domain of C7:
substring matching performed against the *lower-cased* exception text
(the spec asserts both domains match "against the lowercased exception
text"). -/
def handle_sheets_error_lowered (error : String) : String × String × List String :=
  match SHEETS_ERRORS.find? (fun entry => pyContains (pyLower error) entry.1) with
  | some entry => (entry.2.type, entry.2.message, entry.2.suggestions)
  | none => sheetsFallback

/-- The numbered-suggestion lines of `format_error_response`
(`f"{i}. {suggestion}\n"`, counting from 1). -/
def numberSuggestions (i : Nat) : List String → String
  | [] => ""
  | sg :: rest => toString i ++ ". " ++ sg ++ "\n" ++ numberSuggestions (i + 1) rest

/-- `ErrorHandler.format_error_response`. -/
def format_error_response (error error_type message : String)
    (suggestions : List String) (query : Option String) : String :=
  let response := "❌ **" ++ error_type ++ "**\n\n" ++ message ++ "\n\n"
  let response :=
    match query with
    | some q => response ++ "**Query:**\n```sql\n" ++ q ++ "\n```\n\n"
    | none => response
  let response := response ++ "**💡 Suggestions:**\n" ++ numberSuggestions 1 suggestions
  response ++ "\n**Technical Details:**\n" ++ error

/-- The resolver's exception handler: classify with
`handle_snowflake_error` and render with `format_error_response` (no
query section). -/
def formatSnowflakeError (e : String) : String :=
  let t := handle_snowflake_error e
  format_error_response e t.1 t.2.1 t.2.2 none

/-! ## Identifier resolver (`agent/tool_definitions.py`, orphaned
preview/resolver block inside `_list_tables_internal`)

The block previews a table by (trimmed) name.  An unqualified name is
tried directly in the default context; on failure the account-wide
catalogue is searched (`SHOW TABLES LIKE ... IN ACCOUNT`, first with
the name as given, then upper-cased), a found match is previewed by its
fully-qualified name with an annotation naming it, and otherwise the
schema/database redirects or the not-found message are produced.
External calls are oracle parameters: `q` runs a Snowflake statement
(an `Except.error` is a raised exception), `listTables` / `listSchemas`
are the sibling tools invoked by the redirect branches (total: they
catch their own exceptions and return strings).  The second result
component logs the statements issued, in order. -/

/-- The direct preview statement `SELECT * FROM <name> LIMIT <limit>`. -/
def directSql (nm : String) (limit : Nat) : String :=
  "SELECT * FROM " ++ nm ++ " LIMIT " ++ toString limit

/-- The account-wide catalogue search `SHOW TABLES LIKE '<name>' IN ACCOUNT`. -/
def searchSql (nm : String) : String :=
  "SHOW TABLES LIKE '" ++ nm ++ "' IN ACCOUNT"

/-- `SHOW SCHEMAS LIKE '<name>'`. -/
def schemasLikeSql (nm : String) : String :=
  "SHOW SCHEMAS LIKE '" ++ nm ++ "'"

/-- `SHOW DATABASES LIKE '<name>'`. -/
def databasesLikeSql (nm : String) : String :=
  "SHOW DATABASES LIKE '" ++ nm ++ "'"

/-- `row.get("database_name", row.get("DATABASE_NAME", ""))`. -/
def dbOf (target : Row) : String :=
  (alistGet target "database_name").getD ((alistGet target "DATABASE_NAME").getD "")

/-- `row.get("schema_name", row.get("SCHEMA_NAME", ""))`. -/
def schemaOf (target : Row) : String :=
  (alistGet target "schema_name").getD ((alistGet target "SCHEMA_NAME").getD "")

/-- `row.get("name", row.get("NAME", ""))`. -/
def nameOf (target : Row) : String :=
  (alistGet target "name").getD ((alistGet target "NAME").getD "")

/-- The fully-qualified name `db.schema.table` assembled from a
catalogue row. -/
def fqnOf (target : Row) : String :=
  dbOf target ++ "." ++ schemaOf target ++ "." ++ nameOf target

/-- The not-found message of the resolver. -/
def notFoundMsg (nm : String) : String :=
  "Table '" ++ nm ++ "' not found in any schema or database.\n\nTry:\n" ++
  "1. Use `list_tables()` to see available tables\n" ++
  "2. Specify the full table name including schema (e.g., PUBLIC." ++ nm ++ ")"

/-- The `SHOW DATABASES LIKE` redirect (step after the schema check);
`acc` carries the statements already issued in this phase. -/
def dbPhase (q : String → Except String (List Row))
    (listSchemas : String → String) (nm : String) (acc : List String) :
    String × List String :=
  match q (databasesLikeSql nm) with
  | .ok dbs =>
    if dbs.isEmpty then (notFoundMsg nm, acc ++ [databasesLikeSql nm])
    else
      (nm ++ " appears to be a DATABASE, not a table.\n\n" ++
         "Here are the schemas in database '" ++ nm ++ "':\n\n" ++ listSchemas nm,
       acc ++ [databasesLikeSql nm])
  | .error _ => (notFoundMsg nm, acc ++ [databasesLikeSql nm])

/-- The `SHOW SCHEMAS LIKE` redirect; a query exception is swallowed
(`except: pass`) and control falls through to the database check. -/
def fallbackPhase (q : String → Except String (List Row))
    (listTables listSchemas : String → String) (nm : String) :
    String × List String :=
  match q (schemasLikeSql nm) with
  | .ok schemas =>
    if schemas.isEmpty then dbPhase q listSchemas nm [schemasLikeSql nm]
    else
      (nm ++ " appears to be a SCHEMA, not a table.\n\n" ++
         "Here are the tables in schema '" ++ nm ++ "':\n\n" ++ listTables nm,
       [schemasLikeSql nm])
  | .error _ => dbPhase q listSchemas nm [schemasLikeSql nm]

/-- Handling of the catalogue search result: preview the first match by
its fully-qualified name when its database, schema and table name are
all present, otherwise fall through to the schema/database redirects. -/
def foundPhase (q : String → Except String (List Row))
    (listTables listSchemas : String → String) (nm : String) (limit : Nat)
    (tables : List Row) : String × List String :=
  match tables with
  | target :: _ =>
    if dbOf target ≠ "" ∧ schemaOf target ≠ "" ∧ nameOf target ≠ "" then
      match q (directSql (fqnOf target) limit) with
      | .ok results =>
        ("Note: Table found in " ++ fqnOf target ++ "\n\n" ++ formatAsTableD results,
         [directSql (fqnOf target) limit])
      | .error e => (formatSnowflakeError e, [directSql (fqnOf target) limit])
    else fallbackPhase q listTables listSchemas nm
  | [] => fallbackPhase q listTables listSchemas nm

/-- The account-wide catalogue search: the name as given first, then,
when that returns no rows, the upper-cased retry.  A raised exception
reaches the outer handler (`handle_snowflake_error`). -/
def searchPhase (q : String → Except String (List Row))
    (listTables listSchemas : String → String) (nm : String) (limit : Nat) :
    String × List String :=
  match q (searchSql nm) with
  | .error e => (formatSnowflakeError e, [searchSql nm])
  | .ok t1 =>
    if t1.isEmpty then
      match q (searchSql (pyUpper nm)) with
      | .error e => (formatSnowflakeError e, [searchSql nm, searchSql (pyUpper nm)])
      | .ok t2 =>
        let r := foundPhase q listTables listSchemas nm limit t2
        (r.1, searchSql nm :: searchSql (pyUpper nm) :: r.2)
    else
      let r := foundPhase q listTables listSchemas nm limit t1
      (r.1, searchSql nm :: r.2)

/-- The orphaned preview/resolver block of `_list_tables_internal`
(spec §4.4): trim the supplied name, preview directly, and for an
unqualified name fall back to the catalogue search pipeline. -/
def preview_table (q : String → Except String (List Row))
    (listTables listSchemas : String → String)
    (table_name0 : String) (limit : Nat) : String × List String :=
  let table_name := sanitize_table_name table_name0
  if pyContains table_name "." then
    match q (directSql table_name limit) with
    | .ok results => (formatAsTableD results, [directSql table_name limit])
    | .error e => (formatSnowflakeError e, [directSql table_name limit])
  else
    match q (directSql table_name limit) with
    | .ok results => (formatAsTableD results, [directSql table_name limit])
    | .error _ =>
      let r := searchPhase q listTables listSchemas table_name limit
      (r.1, directSql table_name limit :: r.2)

end SnowAgent

namespace SnowAgent

/-! # Claims -/

/-- Characterization of `List.find?`: either some element satisfies the
predicate and `find?` returns the first such one, or none does and
`find?` returns `none`. -/
theorem findFirstChar {α : Type} (l : List α) (p : α → Bool) :
    (∃ i, ∃ hi : i < l.length, p (l.get ⟨i, hi⟩) = true ∧
       (∀ j (hj : j < l.length), j < i → p (l.get ⟨j, hj⟩) = false) ∧
       l.find? p = some (l.get ⟨i, hi⟩)) ∨
    ((∀ x ∈ l, p x = false) ∧ l.find? p = none) := by
  induction l with
  | nil => exact Or.inr ⟨by simp, rfl⟩
  | cons a t ih =>
    by_cases ha : p a = true
    · refine Or.inl ⟨0, by simp, ha, ?_, by simp [List.find?_cons_of_pos _ ha]⟩
      intro j hj hlt
      omega
    · have ha' : p a = false := eq_false_of_ne_true ha
      rcases ih with ⟨i, hi, hpi, hfirst, hfind⟩ | ⟨hall, hfind⟩
      · refine Or.inl ⟨i + 1, by simpa using Nat.succ_lt_succ hi, by simpa using hpi,
          ?_, by rw [List.find?_cons_of_neg _ ha]; simpa using hfind⟩
        intro j hj hlt
        match j with
        | 0 => simpa using ha'
        | j' + 1 =>
          have hj' : j' < t.length := by simpa using Nat.lt_of_succ_lt_succ hj
          simpa using hfirst j' hj' (by omega)
      · refine Or.inr ⟨?_, by rw [List.find?_cons_of_neg _ ha]; exact hfind⟩
        intro x hx
        rcases List.mem_cons.mp hx with rfl | hx
        · exact ha'
        · exact hall x hx

/-- `wrapParsed` always yields an object. -/
theorem wrapParsed_obj (p : Json) : ∃ kvs, wrapParsed p = .obj kvs := by
  cases p with
  | null => exact ⟨_, rfl⟩
  | bool b => exact ⟨_, rfl⟩
  | num m => exact ⟨_, rfl⟩
  | str t => exact ⟨_, rfl⟩
  | arr xs => exact ⟨_, rfl⟩
  | obj kvs => exact ⟨kvs, rfl⟩

/-- `wrapParsed` wraps every non-`dict` value under a `result` key. -/
theorem wrapParsed_of_not_obj (p : Json) (h : p.isObj = false) :
    wrapParsed p = .obj [("result", p)] := by
  cases p with
  | null => rfl
  | bool b => rfl
  | num m => rfl
  | str t => rfl
  | arr xs => rfl
  | obj kvs => simp [Json.isObj] at h

/-- **C1.** For every registered tool and argument mapping,
`_execute_tool` returns a mapping, never a bare string, list, or scalar:
a returned string that parses as a JSON object is returned as that
object; any value that is (or parses to) a string, list, number,
boolean, or null is wrapped as `{result: value}`; in particular, for a
catalogue with one tool `echo(x)` returning the non-JSON string
`"hello"`, `execute("echo", {x: 1})` returns `{result: "hello"}`. -/
theorem c1_execute_returns_mapping :
    (∀ (cat : List (String × ToolFn)) (name : String)
       (args : List (String × Json)) (fn : ToolFn),
       alistGet cat name = some fn →
       ∃ kvs, (execute_tool cat name args).1 = .obj kvs) ∧
    (∀ (cat : List (String × ToolFn)) (name : String)
       (args : List (String × Json)) (fn : ToolFn) (s : String)
       (kvs : List (String × Json)),
       alistGet cat name = some fn → fn args = .ok (.str s) →
       json_loads s = some (.obj kvs) →
       (execute_tool cat name args).1 = .obj kvs) ∧
    (∀ (cat : List (String × ToolFn)) (name : String)
       (args : List (String × Json)) (fn : ToolFn) (v : Json),
       alistGet cat name = some fn → fn args = .ok v →
       (parsedResult v).isObj = false →
       (execute_tool cat name args).1 = .obj [("result", parsedResult v)]) ∧
    (execute_tool [("echo", echoTool)] "echo" [("x", Json.num "1")]).1
      = .obj [("result", .str "hello")] := by
  refine ⟨?_, ?_, ?_, rfl⟩
  · intro cat name args fn h
    simp only [execute_tool, h]
    cases hfa : fn args with
    | error e => exact ⟨_, rfl⟩
    | ok v => exact wrapParsed_obj (parsedResult v)
  · intro cat name args fn s kvs h hfa hj
    simp only [execute_tool, h, hfa]
    show wrapParsed (parsedResult (.str s)) = Json.obj kvs
    have hps : parsedResult (.str s) = .obj kvs := by
      simp only [parsedResult]
      rw [hj]
      rfl
    rw [hps]
    rfl
  · intro cat name args fn v h hfa hp
    simp only [execute_tool, h, hfa]
    show wrapParsed (parsedResult v) = Json.obj [("result", parsedResult v)]
    exact wrapParsed_of_not_obj _ hp

/-- Witness for C1 at the scenario catalogue: the result of
`execute("echo", {x: 1})` is an object, and the non-object branch wraps
the unparseable string `"hello"`. -/
theorem c1_execute_returns_mapping_witness :
    (∃ kvs, (execute_tool [("echo", echoTool)] "echo"
       [("x", Json.num "1")]).1 = .obj kvs) ∧
    (execute_tool [("echo", echoTool)] "echo" [("x", Json.num "1")]).1
      = .obj [("result", parsedResult (.str "hello"))] :=
  ⟨c1_execute_returns_mapping.1 [("echo", echoTool)] "echo"
     [("x", Json.num "1")] echoTool rfl,
   c1_execute_returns_mapping.2.2.1 [("echo", echoTool)] "echo"
     [("x", Json.num "1")] echoTool (.str "hello") rfl rfl rfl⟩

/-- **C2.** `_execute_tool` never propagates an exception: an
unregistered name yields `{error: "Unknown tool: <name>"}` with no tool
invoked (empty invocation log), and a raising tool's exception is caught
and returned as `{error: message}`.  Totality of `execute_tool` is the
no-propagation guarantee. -/
theorem c2_execute_never_raises :
    (∀ (cat : List (String × ToolFn)) (name : String)
       (args : List (String × Json)),
       alistGet cat name = none →
       execute_tool cat name args
         = (.obj [("error", .str ("Unknown tool: " ++ name))], [])) ∧
    (∀ (cat : List (String × ToolFn)) (name : String)
       (args : List (String × Json)) (fn : ToolFn) (msg : String),
       alistGet cat name = some fn → fn args = .error msg →
       (execute_tool cat name args).1 = .obj [("error", .str msg)]) := by
  constructor
  · intro cat name args h
    simp only [execute_tool, h]
  · intro cat name args fn msg h hfa
    simp only [execute_tool, h, hfa]

/-- Witness for C2: the empty catalogue rejects `"nope"` without
invoking anything, and a raising tool's message is surfaced as an error
object. -/
theorem c2_execute_never_raises_witness :
    execute_tool [] "nope" []
      = (.obj [("error", .str "Unknown tool: nope")], []) ∧
    (execute_tool [("boom", fun _ => .error "kaboom")] "boom" []).1
      = .obj [("error", .str "kaboom")] := by
  constructor
  · rw [c2_execute_never_raises.1 [] "nope" [] rfl]
    rfl
  · exact c2_execute_never_raises.2 [("boom", fun _ => .error "kaboom")]
      "boom" [] (fun _ => .error "kaboom") "kaboom" rfl rfl

mutual

/-- `sanitize_schema` output satisfies the cleanliness invariant. -/
theorem cleanSanitize (s : Json) (b : Bool) :
    cleanSchema b (sanitize_schema s b) = true := by
  cases s with
  | obj fields =>
    rw [sanitize_schema, cleanSchema]
    exact cleanSanFields fields b
  | null => simp [sanitize_schema, cleanSchema]
  | bool x => simp [sanitize_schema, cleanSchema]
  | num x => simp [sanitize_schema, cleanSchema]
  | str x => simp [sanitize_schema, cleanSchema]
  | arr xs => simp [sanitize_schema, cleanSchema]
termination_by 2 * sizeOf s

/-- Field lists produced by `sanitizeFields` are clean. -/
theorem cleanSanFields (kvs : List (String × Json)) (b : Bool) :
    cleanFields b (sanitizeFields kvs b) = true := by
  match kvs with
  | [] => rw [sanitizeFields, cleanFields]
  | (k, v) :: rest =>
    rw [sanitizeFields]
    by_cases h1 : k = "additionalProperties"
    · rw [if_pos h1]
      exact cleanSanFields rest b
    · rw [if_neg h1]
      by_cases h2 : b ∧ k = "title"
      · rw [if_pos h2]
        exact cleanSanFields rest b
      · rw [if_neg h2, cleanFields, if_neg h1, if_neg h2,
            cleanSanValue k v, cleanSanFields rest b]
        rfl
termination_by 2 * sizeOf kvs

/-- Values produced by `sanitizeValue` are clean for their key. -/
theorem cleanSanValue (k : String) (v : Json) :
    cleanValue k (sanitizeValue k v) = true := by
  cases v with
  | obj kvs =>
    rw [sanitizeValue]
    by_cases hp : k = "properties"
    · rw [if_pos hp, cleanValue, if_pos hp]
      exact cleanSanProps kvs
    · rw [if_neg hp, sanitize_schema, cleanValue, if_neg hp]
      exact cleanSanFields kvs false
  | arr xs =>
    rw [sanitizeValue, cleanValue]
    exact cleanSanElems xs
  | null => simp [sanitizeValue, cleanValue]
  | bool x => simp [sanitizeValue, cleanValue]
  | num x => simp [sanitizeValue, cleanValue]
  | str x => simp [sanitizeValue, cleanValue]
termination_by 2 * sizeOf v + 1

/-- Property maps produced by `sanitizeProperties` are clean. -/
theorem cleanSanProps (kvs : List (String × Json)) :
    cleanProps (sanitizeProperties kvs) = true := by
  match kvs with
  | [] => rw [sanitizeProperties, cleanProps]
  | (k, v) :: rest =>
    rw [sanitizeProperties, cleanProps, cleanSanitize v false,
        cleanSanProps rest]
    rfl
termination_by 2 * sizeOf kvs

/-- Element lists produced by `sanitizeElems` are clean. -/
theorem cleanSanElems (xs : List Json) :
    cleanElems (sanitizeElems xs) = true := by
  match xs with
  | [] => rw [sanitizeElems, cleanElems]
  | x :: rest =>
    cases x with
    | obj kvs =>
      rw [sanitizeElems, sanitize_schema, cleanElems]
      simp [cleanSanFields kvs false, cleanSanElems rest]
    | null => simp [sanitizeElems, cleanElems, cleanSanElems rest]
    | bool b => simp [sanitizeElems, cleanElems, cleanSanElems rest]
    | num s => simp [sanitizeElems, cleanElems, cleanSanElems rest]
    | str s => simp [sanitizeElems, cleanElems, cleanSanElems rest]
    | arr ys => simp [sanitizeElems, cleanElems, cleanSanElems rest]
termination_by 2 * sizeOf xs

end

/-- A retained key (neither `"additionalProperties"` nor a root
`"title"`) survives `sanitizeFields` with its value rewritten by
`sanitizeValue`. -/
theorem sanitizeFields_mem (kvs : List (String × Json)) (b : Bool)
    (k : String) (v : Json) (hmem : (k, v) ∈ kvs)
    (h1 : k ≠ "additionalProperties") (h2 : ¬(b ∧ k = "title")) :
    (k, sanitizeValue k v) ∈ sanitizeFields kvs b := by
  induction kvs with
  | nil => cases hmem
  | cons hd rest ih =>
    obtain ⟨k', v'⟩ := hd
    rcases List.mem_cons.mp hmem with heq | htl
    · obtain ⟨hk, hv⟩ := Prod.mk.injEq .. ▸ heq
      subst hk; subst hv
      rw [sanitizeFields, if_neg h1, if_neg h2]
      exact List.mem_cons_self _ _
    · rw [sanitizeFields]
      by_cases g1 : k' = "additionalProperties"
      · rw [if_pos g1]; exact ih htl
      · rw [if_neg g1]
        by_cases g2 : b ∧ k' = "title"
        · rw [if_pos g2]; exact ih htl
        · rw [if_neg g2]
          exact List.mem_cons_of_mem _ (ih htl)

/-- `sanitizeElems` on a cons, for any head shape. -/
theorem sanitizeElems_cons (hd : Json) (rest : List Json) :
    sanitizeElems (hd :: rest) =
      (match hd with
       | .obj kvs => sanitize_schema (.obj kvs) false
       | other => other) :: sanitizeElems rest := by
  cases hd <;> simp [sanitizeElems]

/-- Non-dict list elements pass through `sanitizeElems` unchanged, at
their original position. -/
theorem sanitizeElems_passthrough (elems : List Json) (i : Nat) (x : Json)
    (hx : elems[i]? = some x) (hobj : x.isObj = false) :
    (sanitizeElems elems)[i]? = some x := by
  induction elems generalizing i with
  | nil => simp at hx
  | cons hd rest ih =>
    rw [sanitizeElems_cons]
    match i with
    | 0 =>
      simp at hx
      subst hx
      cases hd with
      | obj kvs => simp [Json.isObj] at hobj
      | null => simp
      | bool b => simp
      | num s => simp
      | str s => simp
      | arr ys => simp
    | i' + 1 =>
      simp only [List.getElem?_cons_succ] at hx ⊢
      exact ih i' hx

/-- Non-dict input is returned by `sanitize_schema` unchanged. -/
theorem sanitize_scalar (s : Json) (b : Bool) (h : s.isObj = false) :
    sanitize_schema s b = s := by
  cases s with
  | obj kvs => simp [Json.isObj] at h
  | null => simp [sanitize_schema]
  | bool x => simp [sanitize_schema]
  | num x => simp [sanitize_schema]
  | str x => simp [sanitize_schema]
  | arr xs => simp [sanitize_schema]

/-- **C3 (counterexample).** The claim asserts that `sanitize_schema`
removes every `additionalProperties` key at every nesting depth.  A
property *named* `"additionalProperties"` inside a `properties` map is a
dict key at nesting depth 1, yet it survives sanitization (the
element-wise recursion through `properties` keeps property names). -/
theorem c3_sanitize_schema_counterexample :
    jsonHasKey "additionalProperties"
      (sanitize_schema
        (Json.obj [("properties",
          Json.obj [("additionalProperties",
            Json.obj [("type", Json.str "string")])])])
        true) = true := by
  simp [sanitize_schema, sanitizeFields, sanitizeValue, sanitizeProperties,
    jsonHasKey, fieldsHaveKey]

/-- **C3 (amended).** `sanitize_schema` removes every
`additionalProperties` key at every *keyword* position it traverses —
object fields, values under `properties` element-wise, other dict
values, and dict elements of lists — removes `title` only at the root,
passes non-dict input and non-dict list elements through unchanged (at
their positions), and preserves every other key with its value
recursively sanitized.  Property names inside a `properties` map (even
one spelled `additionalProperties`) and the contents of non-dict list
elements are preserved, not stripped. -/
theorem c3_sanitize_schema_amended :
    (∀ (s : Json) (b : Bool), cleanSchema b (sanitize_schema s b) = true) ∧
    (∀ (kvs : List (String × Json)) (b : Bool) (k : String) (v : Json),
       (k, v) ∈ kvs → k ≠ "additionalProperties" → ¬(b ∧ k = "title") →
       (k, sanitizeValue k v) ∈ sanitizeFields kvs b) ∧
    (∀ (s : Json) (b : Bool), s.isObj = false → sanitize_schema s b = s) ∧
    (∀ (elems : List Json) (i : Nat) (x : Json),
       elems[i]? = some x → x.isObj = false →
       (sanitizeElems elems)[i]? = some x) :=
  ⟨cleanSanitize, sanitizeFields_mem, sanitize_scalar, sanitizeElems_passthrough⟩

/-- Witness for C3 (amended): a root schema with a nested `title`
(preserved), a scalar leaf, and a non-dict list element. -/
theorem c3_sanitize_schema_amended_witness :
    cleanSchema true
      (sanitize_schema (Json.obj [("title", Json.str "Root"),
        ("type", Json.str "object")]) true) = true ∧
    ("title", sanitizeValue "title" (Json.str "Nested")) ∈
      sanitizeFields [("title", Json.str "Nested")] false ∧
    sanitize_schema (Json.str "leaf") true = Json.str "leaf" ∧
    (sanitizeElems [Json.str "frag"])[0]? = some (Json.str "frag") :=
  ⟨c3_sanitize_schema_amended.1 _ true,
   c3_sanitize_schema_amended.2.1 _ false "title" (Json.str "Nested")
     (List.mem_cons_self _ _) (by decide) (by simp),
   c3_sanitize_schema_amended.2.2.1 _ true rfl,
   c3_sanitize_schema_amended.2.2.2 [Json.str "frag"] 0 _ rfl rfl⟩

/-- **C4.** When the model's response turn contains `n ≥ 1` tool-call
requests, the loop executes all `n` of them, in request order (the
first `n` entries of the execution log are exactly the requested
(name, args) pairs in order), and appends all `n` tool results — as the
parts of one single `role="user"` turn, in the same order — to the
conversation passed to the very next `generate_content` call. -/
theorem c4_loop_batches_tool_results :
    ∀ (cat : List (String × ToolFn)) (script : List GResponse)
      (contents : List GContent) (r : GResponse) (c : GContent),
      r.candidates.head? = some (some c) →
      c.parts.filter isFunctionCall ≠ [] →
      (run_loop cat (r :: script) contents).toolLog.take
          (c.parts.filter isFunctionCall).length
        = (c.parts.filter isFunctionCall).map callInfo ∧
      (run_loop cat (r :: script) contents).oracleCalls.head?
        = some (contents ++
            [c, ⟨some "user", toolResponses cat (c.parts.filter isFunctionCall)⟩]) := by
  intro cat script contents r c h1 h2
  have hp : c.parts.isEmpty = false := by
    cases hparts : c.parts with
    | nil => rw [hparts] at h2; simp at h2
    | cons a l => simp
  have hfcs : (c.parts.filter isFunctionCall).isEmpty = false := by
    cases hf : c.parts.filter isFunctionCall with
    | nil => exact absurd hf h2
    | cons a l => simp
  constructor
  · simp only [run_loop, h1, hp, Bool.false_eq_true, if_false, hfcs]
    exact List.take_left' (by simp)
  · simp only [run_loop, h1, hp, Bool.false_eq_true, if_false, hfcs,
      List.head?_cons]

/-- The catalogue of the C4 scenario: one reading tool and one raising
tool. -/
def demoCat : List (String × ToolFn) :=
  [("get_data", fun _ => .ok (.str "ok1")),
   ("send_email", fun _ => .error "boom")]

/-- First requested call of the C4 scenario. -/
def demoCallA : GPart := .functionCall "get_data" [("q", .str "SELECT 1")]

/-- Second requested call of the C4 scenario. -/
def demoCallB : GPart := .functionCall "send_email" []

/-- The model turn requesting both calls in one response. -/
def demoTurn : GContent := ⟨some "model", [demoCallA, demoCallB]⟩

/-- The scripted model response carrying `demoTurn`. -/
def demoResponse : GResponse := ⟨[some demoTurn]⟩

/-- Witness for C4: a model turn with two tool-call requests — both are
executed in order and both results appear, in order, inside the single
tool-result turn given to the next oracle call. -/
theorem c4_loop_batches_tool_results_witness :
    (run_loop demoCat [demoResponse] []).toolLog.take
        (demoTurn.parts.filter isFunctionCall).length
      = (demoTurn.parts.filter isFunctionCall).map callInfo ∧
    (run_loop demoCat [demoResponse] []).oracleCalls.head?
      = some ([] ++
          [demoTurn,
           ⟨some "user", toolResponses demoCat
              (demoTurn.parts.filter isFunctionCall)⟩]) :=
  c4_loop_batches_tool_results demoCat [] [] demoResponse demoTurn rfl
    (fun h => List.noConfusion h)

/-- **C5.** For an unqualified (dot-free) trimmed name whose direct
preview fails, the resolver searches the account-wide catalogue by the
unqualified name — as given first, then upper-cased when the first
search returns nothing — and when the first match carries a database,
schema and table name, it previews the fully-qualified form and
prefixes the returned preview with a note naming the qualified name it
used (it never resolves silently).  The second component lists the
statements issued, in order. -/
theorem c5_resolver_annotates :
    (∀ (q : String → Except String (List Row)) (lt ls : String → String)
       (input : String) (limit : Nat) (err : String)
       (target : Row) (rest prevRows : List Row),
       pyContains (sanitize_table_name input) "." = false →
       q (directSql (sanitize_table_name input) limit) = .error err →
       q (searchSql (sanitize_table_name input)) = .ok (target :: rest) →
       dbOf target ≠ "" → schemaOf target ≠ "" → nameOf target ≠ "" →
       q (directSql (fqnOf target) limit) = .ok prevRows →
       preview_table q lt ls input limit =
         ("Note: Table found in " ++ fqnOf target ++ "\n\n" ++
            formatAsTableD prevRows,
          [directSql (sanitize_table_name input) limit,
           searchSql (sanitize_table_name input),
           directSql (fqnOf target) limit])) ∧
    (∀ (q : String → Except String (List Row)) (lt ls : String → String)
       (input : String) (limit : Nat) (err : String)
       (target : Row) (rest prevRows : List Row),
       pyContains (sanitize_table_name input) "." = false →
       q (directSql (sanitize_table_name input) limit) = .error err →
       q (searchSql (sanitize_table_name input)) = .ok [] →
       q (searchSql (pyUpper (sanitize_table_name input))) = .ok (target :: rest) →
       dbOf target ≠ "" → schemaOf target ≠ "" → nameOf target ≠ "" →
       q (directSql (fqnOf target) limit) = .ok prevRows →
       preview_table q lt ls input limit =
         ("Note: Table found in " ++ fqnOf target ++ "\n\n" ++
            formatAsTableD prevRows,
          [directSql (sanitize_table_name input) limit,
           searchSql (sanitize_table_name input),
           searchSql (pyUpper (sanitize_table_name input)),
           directSql (fqnOf target) limit])) := by
  constructor
  · intro q lt ls input limit err target rest prevRows h0 h1 h2 hdb hsc hnm hp
    simp only [preview_table, h0, Bool.false_eq_true, if_false, h1,
      searchPhase, h2, List.isEmpty_cons, foundPhase, hdb, hsc, hnm,
      ne_eq, not_false_eq_true, and_self, if_true, hp]
  · intro q lt ls input limit err target rest prevRows h0 h1 h2 h3 hdb hsc hnm hp
    simp only [preview_table, h0, Bool.false_eq_true, if_false, h1,
      searchPhase, h2, List.isEmpty_nil, if_true, h3, foundPhase]
    simp [hdb, hsc, hnm, hp]

/-- The catalogue row of the C5 scenario: `sales` found account-wide as
`WAREHOUSE.ANALYTICS.SALES`. -/
def demoRow : Row :=
  [("created_on", "2024-01-01"), ("name", "SALES"),
   ("database_name", "WAREHOUSE"), ("schema_name", "ANALYTICS"),
   ("kind", "TABLE")]

/-- The preview rows returned for `WAREHOUSE.ANALYTICS.SALES`. -/
def demoPreviewRows : List Row :=
  [[("REGION", "EMEA"), ("TOTAL", "42")]]

/-- A concrete warehouse oracle for the C5 scenario: the unqualified
preview raises, the case-sensitive account search finds nothing, the
upper-cased retry finds `WAREHOUSE.ANALYTICS.SALES`, and the qualified
preview succeeds. -/
def demoQ : String → Except String (List Row) := fun s =>
  if s = directSql "sales" 10 then
    .error "SQL compilation error: Object 'SALES' does not exist or not authorized"
  else if s = searchSql "sales" then .ok []
  else if s = searchSql "SALES" then .ok [demoRow]
  else if s = directSql (fqnOf demoRow) 10 then .ok demoPreviewRows
  else .error "unexpected statement"

/-- Witness for C5 at the scenario oracle: the response is the row
preview annotated with the resolved fully-qualified name, after the
direct attempt, the case-sensitive search, and the upper-cased retry. -/
theorem c5_resolver_annotates_witness :
    preview_table demoQ (fun _ => "") (fun _ => "") "sales" 10 =
      ("Note: Table found in " ++ fqnOf demoRow ++ "\n\n" ++
         formatAsTableD demoPreviewRows,
       [directSql (sanitize_table_name "sales") 10,
        searchSql (sanitize_table_name "sales"),
        searchSql (pyUpper (sanitize_table_name "sales")),
        directSql (fqnOf demoRow) 10]) :=
  c5_resolver_annotates.2 demoQ (fun _ => "") (fun _ => "") "sales" 10
    "SQL compilation error: Object 'SALES' does not exist or not authorized"
    demoRow [] demoPreviewRows rfl rfl rfl rfl (by decide) (by decide)
    (by decide) rfl

/-- **C6 (counterexample).** The claim says the trimming is
conservative: only recognized leading phrases are stripped and the
remaining bare identifier reaches the lookup with characters and case
unchanged.  The name `"MY_PREVIEW_TABLE"` starts with no recognized
phrase, yet the block lower-cases it and truncates it at the embedded
`"preview"`, producing `"my_"`. -/
theorem c6_trim_counterexample :
    sanitize_table_name "MY_PREVIEW_TABLE" = "my_" ∧
    sanitize_table_name "MY_PREVIEW_TABLE" ≠ "MY_PREVIEW_TABLE" := by
  constructor
  · rfl
  · decide

/-- **C6 (amended).** The trimming strips the recognized leading
phrases sequentially (matched case-insensitively, the remainder keeping
its characters and case, with surrounding whitespace stripped); then,
only if the remaining name still contains `"preview"` case-insensitively,
the name is additionally lower-cased and truncated before the first
`"preview"`.  In particular a name starting with no recognized phrase
and not containing `"preview"` reaches the lookup unchanged apart from
`strip()`. -/
theorem c6_trim_amended :
    (∀ nm : String,
       pyContains (pyLower (stripRecognizedPrefixes nm)) "preview" = false →
       sanitize_table_name nm = pyStrip (stripRecognizedPrefixes nm)) ∧
    (∀ nm : String,
       (∀ p ∈ RECOGNIZED_PREFIXES, pyStartswith (pyLower nm) p = false) →
       pyContains (pyLower nm) "preview" = false →
       sanitize_table_name nm = pyStrip nm) := by
  constructor
  · intro nm h
    simp [sanitize_table_name, h]
  · intro nm hpre hprev
    have h1 : stripRecognizedPrefixes nm = nm := by
      have e1 := hpre "preview table " (by simp [RECOGNIZED_PREFIXES])
      have e2 := hpre "preview " (by simp [RECOGNIZED_PREFIXES])
      have e3 := hpre "show table " (by simp [RECOGNIZED_PREFIXES])
      have e4 := hpre "show " (by simp [RECOGNIZED_PREFIXES])
      have e5 := hpre "table " (by simp [RECOGNIZED_PREFIXES])
      simp [stripRecognizedPrefixes, RECOGNIZED_PREFIXES, e1, e2, e3, e4, e5]
    simp [sanitize_table_name, h1, hprev]

/-- Witness for C6 (amended): a recognized phrase is stripped with the
remainder's case preserved, and a plain name passes through. -/
theorem c6_trim_amended_witness :
    sanitize_table_name "preview table Sales_2024"
      = pyStrip (stripRecognizedPrefixes "preview table Sales_2024") ∧
    sanitize_table_name "SALES" = pyStrip "SALES" :=
  ⟨c6_trim_amended.1 "preview table Sales_2024" rfl,
   c6_trim_amended.2 "SALES" (by decide) rfl⟩

/-- **C7 (counterexample).** The claim states that *both* domains match
patterns against the lower-cased exception text.  For the spreadsheet
domain the code matches the raw text case-sensitively: on the exception
text `"Unable to parse range: Sheet1!A1"` the code returns the
`InvalidRange` triple, while matching against the lower-cased text (the
claim's description, `handle_sheets_error_lowered`) yields the generic
fallback. -/
theorem c7_classify_counterexample :
    (handle_sheets_error "Unable to parse range: Sheet1!A1").1 = "InvalidRange" ∧
    (handle_sheets_error_lowered "Unable to parse range: Sheet1!A1").1
      = "GoogleSheetsError" := by
  constructor <;> rfl

/-- **C7 (amended).** `handle_snowflake_error` matches the lower-cased
exception text against the ordered Snowflake pattern table by
regular-expression search with the pattern itself lower-cased, while
`handle_sheets_error` matches the *raw* exception text by case-sensitive
substring search; in both domains the first matching entry's fixed
(kind, message, suggestions) triple is returned, and when no entry
matches, the domain's fixed generic fallback triple is returned.  Both
classifiers are total Lean functions, so neither can raise. -/
theorem c7_classify_first_match :
    (∀ e : String,
      (∃ i, ∃ hi : i < SNOWFLAKE_ERRORS.length,
         snowMatches (SNOWFLAKE_ERRORS.get ⟨i, hi⟩) e = true ∧
         (∀ j (hj : j < SNOWFLAKE_ERRORS.length), j < i →
            snowMatches (SNOWFLAKE_ERRORS.get ⟨j, hj⟩) e = false) ∧
         handle_snowflake_error e =
           ((SNOWFLAKE_ERRORS.get ⟨i, hi⟩).2.type,
            (SNOWFLAKE_ERRORS.get ⟨i, hi⟩).2.message,
            (SNOWFLAKE_ERRORS.get ⟨i, hi⟩).2.suggestions)) ∨
      ((∀ entry ∈ SNOWFLAKE_ERRORS, snowMatches entry e = false) ∧
         handle_snowflake_error e = snowFallback)) ∧
    (∀ e : String,
      (∃ i, ∃ hi : i < SHEETS_ERRORS.length,
         sheetsMatches (SHEETS_ERRORS.get ⟨i, hi⟩) e = true ∧
         (∀ j (hj : j < SHEETS_ERRORS.length), j < i →
            sheetsMatches (SHEETS_ERRORS.get ⟨j, hj⟩) e = false) ∧
         handle_sheets_error e =
           ((SHEETS_ERRORS.get ⟨i, hi⟩).2.type,
            (SHEETS_ERRORS.get ⟨i, hi⟩).2.message,
            (SHEETS_ERRORS.get ⟨i, hi⟩).2.suggestions)) ∨
      ((∀ entry ∈ SHEETS_ERRORS, sheetsMatches entry e = false) ∧
         handle_sheets_error e = sheetsFallback)) := by
  constructor
  · intro e
    rcases findFirstChar SNOWFLAKE_ERRORS (fun entry => snowMatches entry e) with
      ⟨i, hi, hpi, hfirst, hfind⟩ | ⟨hall, hfind⟩
    · exact Or.inl ⟨i, hi, hpi, hfirst,
        by unfold handle_snowflake_error; rw [hfind]⟩
    · exact Or.inr ⟨hall, by unfold handle_snowflake_error; rw [hfind]⟩
  · intro e
    rcases findFirstChar SHEETS_ERRORS (fun entry => sheetsMatches entry e) with
      ⟨i, hi, hpi, hfirst, hfind⟩ | ⟨hall, hfind⟩
    · exact Or.inl ⟨i, hi, hpi, hfirst,
        by unfold handle_sheets_error; rw [hfind]⟩
    · exact Or.inr ⟨hall, by unfold handle_sheets_error; rw [hfind]⟩

/-- Witness for C7 (amended) at the concrete exception text
`"Division by zero"`. -/
theorem c7_classify_first_match_witness :
    (∃ i, ∃ hi : i < SNOWFLAKE_ERRORS.length,
       snowMatches (SNOWFLAKE_ERRORS.get ⟨i, hi⟩) "Division by zero" = true ∧
       (∀ j (hj : j < SNOWFLAKE_ERRORS.length), j < i →
          snowMatches (SNOWFLAKE_ERRORS.get ⟨j, hj⟩) "Division by zero" = false) ∧
       handle_snowflake_error "Division by zero" =
         ((SNOWFLAKE_ERRORS.get ⟨i, hi⟩).2.type,
          (SNOWFLAKE_ERRORS.get ⟨i, hi⟩).2.message,
          (SNOWFLAKE_ERRORS.get ⟨i, hi⟩).2.suggestions)) ∨
    ((∀ entry ∈ SNOWFLAKE_ERRORS, snowMatches entry "Division by zero" = false) ∧
       handle_snowflake_error "Division by zero" = snowFallback) :=
  c7_classify_first_match.1 "Division by zero"

/-- **C8.** `save_alias(a, id)` followed by `get_id(a)` returns `id`
(the most recent save wins even when `a` was already bound), and
`get_id` on a key absent from the store returns the key itself. -/
theorem c8_alias_roundtrip :
    (∀ (res : Store) (a id : String), get_id (save_alias res a id) a = id) ∧
    (∀ (res : Store) (k : String), res k = none → get_id res k = k) := by
  constructor
  · intro res a id
    simp [get_id, save_alias]
  · intro res k h
    simp [get_id, h]

/-- Witness for C8 at a concrete store: round-trip after an overwrite,
and pass-through on an unknown key. -/
theorem c8_alias_roundtrip_witness :
    get_id (save_alias (save_alias (fun _ => none) "q4" "OLD") "q4" "NEW") "q4"
        = "NEW" ∧
    get_id (fun _ => none) "already_an_id" = "already_an_id" := by
  exact ⟨c8_alias_roundtrip.1 (save_alias (fun _ => none) "q4" "OLD") "q4" "NEW",
         c8_alias_roundtrip.2 (fun _ => none) "already_an_id" rfl⟩

/-- **C9.** `write_sheet` raises exactly when the API response reports an
`updatedCells` count of zero or reports none at all, and returns the
response mapping whenever the reported count is nonzero (in particular
whenever it is positive): a zero-cell write never returns as success. -/
theorem c9_write_zero_cells :
    (∀ result : List (String × Int),
      (∃ msg, write_sheet_check result = .error msg) ↔
        (alistGet result "updatedCells" = some 0 ∨
         alistGet result "updatedCells" = none)) ∧
    (∀ (result : List (String × Int)) (n : Int),
      alistGet result "updatedCells" = some n → n ≠ 0 →
      write_sheet_check result = .ok result) := by
  constructor
  · intro result
    unfold write_sheet_check
    rcases h : alistGet result "updatedCells" with _ | n
    · simp
    · by_cases hn : n = 0 <;> simp [hn]
  · intro result n h hn
    unfold write_sheet_check
    simp [h, hn]

/-- Witness for C9: a response reporting `updatedCells = 0` raises, one
reporting `updatedCells = 12` is returned unchanged. -/
theorem c9_write_zero_cells_witness :
    (∃ msg, write_sheet_check [("updatedCells", (0 : Int))] = .error msg) ∧
    write_sheet_check [("updatedCells", (12 : Int))]
      = .ok [("updatedCells", (12 : Int))] := by
  exact ⟨(c9_write_zero_cells.1 [("updatedCells", (0 : Int))]).2
           (Or.inl (by decide)),
         c9_write_zero_cells.2 [("updatedCells", (12 : Int))] 12 (by decide)
           (by decide)⟩

/-- **C10.** A successful `rename_sheet(a, n)` adds or overwrites only the
alias derived from `n` (lower-cased, spaces → underscores), binding it to
the id that `a` resolved to; every other key of the alias store is
unchanged, and `a` itself still resolves to that same spreadsheet id
afterwards. -/
theorem c10_rename_frame (res : Store) (a n : String) :
    (rename_sheet res (.ok ()) a n).1 (derive_alias n) = some (get_id res a) ∧
    (∀ k, k ≠ derive_alias n →
      (rename_sheet res (.ok ()) a n).1 k = res k) ∧
    get_id (rename_sheet res (.ok ()) a n).1 a = get_id res a := by
  refine ⟨by simp [rename_sheet, save_alias], ?_, ?_⟩
  · intro k hk
    simp [rename_sheet, save_alias, hk]
  · by_cases ha : a = derive_alias n
    · subst ha
      simp [rename_sheet, save_alias, get_id]
    · simp [rename_sheet, save_alias, get_id, ha]

end SnowAgent
